import Mathlib

/-!
Verification of the `mcp_arxiv_tool` core (benty_client.py, pdf_processor.py,
generate_summary.py, server.py) against its natural-language specification.

The Python code is shallowly embedded: pure parsing and string manipulation
become Lean functions on `String` (viewed through its `List Char` data, which
mirrors Python's view of a `str` as a sequence of code points); the stateful
download / conversion operations become explicit-state functions over a
modelled filesystem `Path → Option content` together with a counter of
network downloads (resp. conversion invocations), with the behaviour of the
network and of the opaque extraction backends supplied as parameters.
Exceptions that the Python code catches become `Option`; exceptions it
surfaces become `Except`-style result values.
-/

/-! ## Python string primitives

Each helper models one Python `str` operation, operating structurally on
`String.data` so that all definitions reduce on concrete inputs. -/

/-- Models Python `s[:n]` (also `l.take n` slicing of any sequence). -/
def pyTake (s : String) (n : Nat) : String := ⟨s.data.take n⟩

/-- Models Python `s[n:]`. -/
def pyDrop (s : String) (n : Nat) : String := ⟨s.data.drop n⟩

/-- Models Python `s.strip()` (whitespace stripped from both ends). -/
def pyStrip (s : String) : String :=
  ⟨((s.data.dropWhile Char.isWhitespace).reverse.dropWhile Char.isWhitespace).reverse⟩

/-- Models Python `s.split(sep)[0]` for a one-character separator:
everything strictly before the first occurrence of `sep` (all of `s`
when `sep` does not occur). -/
def pySplitHead (sep : Char) (s : String) : String :=
  ⟨s.data.takeWhile (fun c => c ≠ sep)⟩

/-- Models Python `s.split(sep)[-1]` for a one-character separator:
everything strictly after the last occurrence of `sep` (all of `s`
when `sep` does not occur). -/
def pySplitLast (sep : Char) (s : String) : String :=
  ⟨(s.data.reverse.takeWhile (fun c => c ≠ sep)).reverse⟩

/-- Models Python `s.endswith(t)`. -/
def pyEndsWith (s t : String) : Bool := t.data.isSuffixOf s.data

/-- Split a character list at the first occurrence of `sep`:
`some (before, after)` when `sep` occurs, `none` otherwise. -/
def breakAtFirst (sep : Char) : List Char → Option (List Char × List Char)
  | [] => none
  | x :: xs =>
    if x = sep then some ([], xs)
    else (breakAtFirst sep xs).map (fun p => (x :: p.1, p.2))

/-- Models the two-target unpacking `a, b = s.split(sep, 1)` in Python:
succeeds exactly when `sep` occurs in `s` (otherwise `split` yields a
one-element list and the unpacking raises). -/
def pySplitOnce (sep : Char) (s : String) : Option (String × String) :=
  (breakAtFirst sep s.data).map (fun p => (⟨p.1⟩, ⟨p.2⟩))

/-- Models Python `int(s)` restricted to plain decimal-digit numerals,
the form the listing page's rank headings take: `some` exactly when `s`
is a nonempty string of decimal digits. -/
def pyInt (s : String) : Option Nat :=
  if s.data ≠ [] ∧ s.data.all Char.isDigit then
    some (s.data.foldl (fun n c => n * 10 + (c.toNat - '0'.toNat)) 0)
  else none

/-! ## Listing parser (benty_client.py)

A paper block (`<div class="paper">`) is modelled by the pieces of it the
parser `_parse_paper` inspects: the `h4.paper_row` heading text, the
`p.paper_row` authors text, the first anchor whose href contains
`arxiv.org/abs`, the first anchor whose href ends in `.pdf`, and the
optional `p[name=abstract_field]` text. A missing element is `none`
(BeautifulSoup `find` returning `None`). Text fields carry the
already-stripped `get_text(strip=True)` value. -/

structure LinkTag where
  text : String
  href : String
deriving DecidableEq, Repr

structure PaperDiv where
  h4 : Option String
  authorsP : Option String
  absLink : Option LinkTag
  pdfLink : Option LinkTag
  abstractP : Option String
deriving DecidableEq, Repr

structure Paper where
  rank : Nat
  title : String
  authors : String
  abstract : String
  arxiv_id : String
  arxiv_version : String
  pdf_url : String
  abs_url : String
deriving DecidableEq, Repr

/-- Embeds `BentyFieldsClient._parse_paper` (benty_client.py lines 91-128).
Every exception raised there (missing heading / authors / links, a heading
with no `.` separator, a rank that fails `int(...)`) is caught by the
caller, so the embedding returns `Option`. -/
def parsePaper (d : PaperDiv) : Option Paper :=
  match d.h4 with
  | none => none
  | some rawTitle =>
  match pySplitOnce '.' rawTitle with
  | none => none
  | some (rankStr, title) =>
  match pyInt rankStr with
  | none => none
  | some rank =>
  match d.authorsP with
  | none => none
  | some authors =>
  match d.absLink with
  | none => none
  | some absL =>
  match d.pdfLink with
  | none => none
  | some pdfL =>
  some { rank := rank, title := pyStrip title, authors := authors,
         abstract := (d.abstractP).getD "",
         arxiv_id := pySplitHead 'v' absL.text,
         arxiv_version := absL.text, pdf_url := pdfL.href,
         abs_url := absL.href }

/-- Embeds the parsing core of `BentyFieldsClient.fetch_daily_papers`
(benty_client.py lines 76-89): the page's paper divs are truncated to
`num_papers` first, then each is parsed, with per-entry failures logged
and skipped. The function is total: no per-entry failure escapes. -/
def fetch_daily_papers (divs : List PaperDiv) (num_papers : Nat) : List Paper :=
  (divs.take num_papers).filterMap parsePaper

/-! ## Helper lemmas about `filterMap` under all-success -/

theorem filterMap_length_of_isSome {α β : Type} (f : α → Option β) (l : List α)
    (h : ∀ a ∈ l, (f a).isSome) : (l.filterMap f).length = l.length := by
  induction l with
  | nil => rfl
  | cons a l ih =>
    rcases Option.isSome_iff_exists.1 (h a (by simp)) with ⟨b, hb⟩
    simp [List.filterMap_cons, hb, ih (fun x hx => h x (by simp [hx]))]

theorem take_filterMap_of_isSome {α β : Type} (f : α → Option β) (l : List α) (n : Nat)
    (h : ∀ a ∈ l, (f a).isSome) :
    (l.take n).filterMap f = (l.filterMap f).take n := by
  induction l generalizing n with
  | nil => simp
  | cons a l ih =>
    cases n with
    | zero => simp
    | succ n =>
      rcases Option.isSome_iff_exists.1 (h a (by simp)) with ⟨b, hb⟩
      simp [List.filterMap_cons, hb, ih n (fun x hx => h x (by simp [hx]))]

/-- C1: for a listing page of N well-formed paper blocks whose embedded ranks
are strictly increasing in page order, and any requested limit L,
`fetch_daily_papers` returns exactly `min N L` records, in original page
order (the length-L prefix of the fully parsed page), with rank strictly
increasing by page position. -/
theorem fetch_listing_count_order (divs : List PaperDiv) (L : Nat)
    (hwf : ∀ d ∈ divs, (parsePaper d).isSome)
    (hrank : (divs.filterMap parsePaper).Pairwise (fun p q => p.rank < q.rank)) :
    (fetch_daily_papers divs L).length = min divs.length L
    ∧ fetch_daily_papers divs L = (divs.filterMap parsePaper).take L
    ∧ (fetch_daily_papers divs L).Pairwise (fun p q => p.rank < q.rank) := by
  have hc : fetch_daily_papers divs L = (divs.filterMap parsePaper).take L :=
    take_filterMap_of_isSome parsePaper divs L hwf
  refine ⟨?_, hc, ?_⟩
  · rw [hc, List.length_take, filterMap_length_of_isSome parsePaper divs hwf, Nat.min_comm]
  · rw [hc]
    exact hrank.sublist (List.take_sublist _ _)

def wDiv1 : PaperDiv :=
  { h4 := some "1. First Paper", authorsP := some "A. Author",
    absLink := some ⟨"2601.00001v1", "https://arxiv.org/abs/2601.00001v1"⟩,
    pdfLink := some ⟨"pdf", "https://arxiv.org/pdf/2601.00001v1.pdf"⟩,
    abstractP := some "First abstract." }

def wDiv2 : PaperDiv :=
  { h4 := some "2. Second Paper", authorsP := some "B. Author",
    absLink := some ⟨"2601.00002v1", "https://arxiv.org/abs/2601.00002v1"⟩,
    pdfLink := some ⟨"pdf", "https://arxiv.org/pdf/2601.00002v1.pdf"⟩,
    abstractP := none }

def wDiv3 : PaperDiv :=
  { h4 := some "3. Third Paper", authorsP := some "C. Author",
    absLink := some ⟨"2601.00003v2", "https://arxiv.org/abs/2601.00003v2"⟩,
    pdfLink := some ⟨"pdf", "https://arxiv.org/pdf/2601.00003v2.pdf"⟩,
    abstractP := some "Third abstract." }

theorem fetch_listing_count_order_witness :
    (fetch_daily_papers [wDiv1, wDiv2, wDiv3] 2).length
        = min ([wDiv1, wDiv2, wDiv3] : List PaperDiv).length 2
    ∧ fetch_daily_papers [wDiv1, wDiv2, wDiv3] 2
        = ([wDiv1, wDiv2, wDiv3].filterMap parsePaper).take 2
    ∧ (fetch_daily_papers [wDiv1, wDiv2, wDiv3] 2).Pairwise
        (fun p q => p.rank < q.rank) :=
  fetch_listing_count_order [wDiv1, wDiv2, wDiv3] 2 (by decide) (by decide)

/-- C3: a listing page in which one block fails to parse (e.g. lacks a PDF
link) and all other blocks are well-formed yields exactly the well-formed
entries in page order with the malformed entry omitted — never an empty
result merely because of the one failure (and never an exception: the
embedding of `fetch_daily_papers` is a total function, mirroring the
`try/except` that catches every per-entry error). Stated for a limit `L`
at least the page size, so that the limit does not drop entries itself. -/
theorem fetch_listing_partial_failure (pre post : List PaperDiv) (bad : PaperDiv)
    (L : Nat) (hbad : parsePaper bad = none)
    (hpre : ∀ d ∈ pre, (parsePaper d).isSome)
    (hpost : ∀ d ∈ post, (parsePaper d).isSome)
    (hL : pre.length + 1 + post.length ≤ L) :
    fetch_daily_papers (pre ++ bad :: post) L
      = pre.filterMap parsePaper ++ post.filterMap parsePaper
    ∧ (fetch_daily_papers (pre ++ bad :: post) L).length = pre.length + post.length
    ∧ (pre ≠ [] ∨ post ≠ [] → fetch_daily_papers (pre ++ bad :: post) L ≠ []) := by
  have hlen : (pre ++ bad :: post).length ≤ L := by
    simp only [List.length_append, List.length_cons]
    omega
  have he : fetch_daily_papers (pre ++ bad :: post) L
      = pre.filterMap parsePaper ++ post.filterMap parsePaper := by
    unfold fetch_daily_papers
    rw [List.take_of_length_le hlen, List.filterMap_append]
    simp [List.filterMap_cons, hbad]
  have hl : (fetch_daily_papers (pre ++ bad :: post) L).length
      = pre.length + post.length := by
    rw [he, List.length_append, filterMap_length_of_isSome parsePaper pre hpre,
      filterMap_length_of_isSome parsePaper post hpost]
  refine ⟨he, hl, ?_⟩
  intro hne hnil
  rw [hnil] at hl
  simp only [List.length_nil] at hl
  rcases hne with h | h
  · exact h (List.length_eq_zero.mp (by omega))
  · exact h (List.length_eq_zero.mp (by omega))

def badDiv : PaperDiv :=
  { h4 := some "2. Malformed Paper", authorsP := some "B. Author",
    absLink := some ⟨"2601.00002v1", "https://arxiv.org/abs/2601.00002v1"⟩,
    pdfLink := none,
    abstractP := none }

theorem fetch_listing_partial_failure_witness :
    fetch_daily_papers ([wDiv1] ++ badDiv :: [wDiv3]) 10
      = [wDiv1].filterMap parsePaper ++ [wDiv3].filterMap parsePaper
    ∧ (fetch_daily_papers ([wDiv1] ++ badDiv :: [wDiv3]) 10).length
      = [wDiv1].length + [wDiv3].length
    ∧ ([wDiv1] ≠ ([] : List PaperDiv) ∨ [wDiv3] ≠ ([] : List PaperDiv) →
        fetch_daily_papers ([wDiv1] ++ badDiv :: [wDiv3]) 10 ≠ []) :=
  fetch_listing_partial_failure [wDiv1] [wDiv3] badDiv 10 (by decide) (by decide)
    (by decide) (by decide)

/-! ## C7: identifier derivation from the version label -/

/-- Modelled from the spec: "`identifier` is derived from `version_label`
by stripping the trailing version marker". Removes a trailing `v<digits>`
suffix when present, and returns the label unchanged otherwise. Used only
to compare the spec's wording with what `_parse_paper` computes. -/
def stripTrailingVersionMarker (s : String) : String :=
  let r := s.data.reverse
  let ds := r.takeWhile Char.isDigit
  if ds ≠ [] ∧ (r.drop ds.length).head? = some 'v' then
    ⟨(r.drop (ds.length + 1)).reverse⟩
  else s

def solvDiv : PaperDiv :=
  { h4 := some "1. An integrable lattice model", authorsP := some "S. Author",
    absLink := some ⟨"solv-int/9901001v1", "https://arxiv.org/abs/solv-int/9901001v1"⟩,
    pdfLink := some ⟨"pdf", "https://arxiv.org/pdf/solv-int/9901001v1.pdf"⟩,
    abstractP := none }

/-- C7 counterexample: on a well-formed block whose abstract-link text is the
old-style versioned label `"solv-int/9901001v1"`, `_parse_paper` derives the
identifier `"sol"` (it cuts at the FIRST `"v"`, via `split("v")[0]`), which
is not the label with its trailing version marker stripped
(`"solv-int/9901001"`). -/
theorem parse_identifier_cex :
    (parsePaper solvDiv).map Paper.arxiv_version = some "solv-int/9901001v1"
    ∧ (parsePaper solvDiv).map Paper.arxiv_id = some "sol"
    ∧ stripTrailingVersionMarker "solv-int/9901001v1" = "solv-int/9901001"
    ∧ (parsePaper solvDiv).map Paper.arxiv_id
        ≠ some (stripTrailingVersionMarker "solv-int/9901001v1") := by
  refine ⟨by decide, by decide, by decide, by decide⟩

theorem splitHead_append (s : String) (c : Char) :
    ∃ t : String, pySplitHead c s ++ t = s :=
  ⟨⟨s.data.dropWhile (fun x => x ≠ c)⟩, by
    show String.mk (s.data.takeWhile (fun x => x ≠ c)
      ++ s.data.dropWhile (fun x => x ≠ c)) = s
    rw [List.takeWhile_append_dropWhile]⟩

/-- C7 amended: for every parsed paper record, the identifier is the portion
of the version label strictly before the FIRST occurrence of the character
`v` (the whole label when no `v` occurs) — hence always a prefix of the
version label, but not in general the label up to the trailing version
marker. -/
theorem parse_identifier_first_v (d : PaperDiv) (p : Paper)
    (h : parsePaper d = some p) :
    p.arxiv_id = pySplitHead 'v' p.arxiv_version
    ∧ ∃ t : String, p.arxiv_id ++ t = p.arxiv_version := by
  unfold parsePaper at h
  repeat' split at h
  all_goals try exact Option.noConfusion h
  cases h
  exact ⟨rfl, splitHead_append _ 'v'⟩

def paper1 : Paper :=
  { rank := 1, title := "First Paper", authors := "A. Author",
    abstract := "First abstract.", arxiv_id := "2601.00001",
    arxiv_version := "2601.00001v1",
    pdf_url := "https://arxiv.org/pdf/2601.00001v1.pdf",
    abs_url := "https://arxiv.org/abs/2601.00001v1" }

theorem parse_identifier_first_v_witness :
    paper1.arxiv_id = pySplitHead 'v' paper1.arxiv_version
    ∧ ∃ t : String, paper1.arxiv_id ++ t = paper1.arxiv_version :=
  parse_identifier_first_v wDiv1 paper1 (by decide)

/-! ## Content acquirer (pdf_processor.py)

The filesystem is modelled as a map from path strings to optional file
contents (byte lists); `Path.exists()` is `(fs p).isSome`. The network's
behaviour for the single request a call can make is a parameter:
a success status with the full chunk stream, a non-success status
(`raise_for_status` raises before the destination file is opened), or a
success status whose body stream raises after yielding some chunks (by
then the destination file has been opened and the yielded chunks written,
since the code streams straight into the final path). The `downloads`
counter counts issued network requests. -/

def updateFile {α : Type} (fs : String → Option α) (p : String) (v : α) :
    String → Option α :=
  fun q => if q = p then some v else fs q

inductive HttpResp where
  | ok (chunks : List (List Nat))
  | badStatus
  | interrupted (chunks : List (List Nat))
deriving DecidableEq, Repr

inductive DlError where
  | transport
deriving DecidableEq, Repr

structure DlState where
  fs : String → Option (List Nat)
  downloads : Nat

structure Processor where
  tmpDir : String
deriving DecidableEq, Repr

/-- Embeds the save-path computation of `PDFProcessor.download_pdf`
(pdf_processor.py lines 63-70): when no explicit path is given, the
filename is the URL's last `/`-segment, with `".pdf"` appended unless the
segment already ends in `".pdf"`, placed under the cache root `tmp_dir`. -/
def effectiveSavePath (proc : Processor) (pdf_url : String)
    (save_path : Option String) : String :=
  match save_path with
  | some p => p
  | none =>
    let filename := pySplitLast '/' pdf_url
    let filename := if pyEndsWith filename ".pdf" then filename
      else filename ++ ".pdf"
    proc.tmpDir ++ "/" ++ filename

/-- Embeds `PDFProcessor.download_pdf` (pdf_processor.py lines 52-90). -/
def download_pdf (proc : Processor) (st : DlState) (pdf_url : String)
    (save_path : Option String) (resp : HttpResp) :
    (Except DlError String) × DlState :=
  let sp := effectiveSavePath proc pdf_url save_path
  if (st.fs sp).isSome then (.ok sp, st)
  else
    let st' : DlState := { st with downloads := st.downloads + 1 }
    match resp with
    | .badStatus => (.error .transport, st')
    | .ok chunks => (.ok sp, { st' with fs := updateFile st'.fs sp chunks.flatten })
    | .interrupted chunks =>
        (.error .transport, { st' with fs := updateFile st'.fs sp chunks.flatten })

/-- Embeds `PDFProcessor.download_paper_pdf` (pdf_processor.py lines 92-110). -/
def download_paper_pdf (proc : Processor) (st : DlState) (p : Paper)
    (resp : HttpResp) : (Except DlError String) × DlState :=
  let pdfPath := proc.tmpDir ++ "/" ++ p.arxiv_id ++ ".pdf"
  if (st.fs pdfPath).isSome then (.ok pdfPath, st)
  else download_pdf proc st p.pdf_url (some pdfPath) resp

def emptyFs : String → Option (List Nat) := fun _ => none

def cexProc : Processor := ⟨"/tmp/benty_arxiv_pdfs"⟩

def cexSt : DlState := ⟨emptyFs, 0⟩

/-- C2 counterexample: a transport failure partway through the body stream
(after the chunk `[37, 80, 68, 70]` was yielded) surfaces a transport error,
yet leaves that partial content at the final cache path, where it satisfies
the existence check a retry would perform. -/
theorem download_pdf_partial_file_cex :
    (download_pdf cexProc cexSt "https://arxiv.org/pdf/2601.00001v1.pdf" none
        (.interrupted [[37, 80, 68, 70]])).fst = .error .transport
    ∧ (download_pdf cexProc cexSt "https://arxiv.org/pdf/2601.00001v1.pdf" none
        (.interrupted [[37, 80, 68, 70]])).snd.fs
        "/tmp/benty_arxiv_pdfs/2601.00001v1.pdf" = some [37, 80, 68, 70] := by
  constructor
  · rfl
  · rfl

/-- C2 amended: when `download_pdf` fails with a non-success HTTP status, no
file is created at the cache path (the status is checked before the
destination is opened), so the existence check still fails on retry; but
when a transport failure occurs partway through the body stream, the
partially written content remains at the final cache path and does satisfy
the existence check on a subsequent retry. -/
theorem download_pdf_failure_paths (proc : Processor) (st : DlState)
    (pdf_url : String) (save_path : Option String) (chunks : List (List Nat))
    (h : st.fs (effectiveSavePath proc pdf_url save_path) = none) :
    (download_pdf proc st pdf_url save_path .badStatus).fst = .error .transport
    ∧ (download_pdf proc st pdf_url save_path .badStatus).snd.fs = st.fs
    ∧ (download_pdf proc st pdf_url save_path (.interrupted chunks)).fst
        = .error .transport
    ∧ (download_pdf proc st pdf_url save_path (.interrupted chunks)).snd.fs
        (effectiveSavePath proc pdf_url save_path) = some chunks.flatten := by
  refine ⟨?_, ?_, ?_, ?_⟩ <;> simp [download_pdf, h, updateFile]

theorem download_pdf_failure_paths_witness :
    (download_pdf cexProc cexSt "https://arxiv.org/pdf/x" none .badStatus).fst
        = .error .transport
    ∧ (download_pdf cexProc cexSt "https://arxiv.org/pdf/x" none .badStatus).snd.fs
        = cexSt.fs
    ∧ (download_pdf cexProc cexSt "https://arxiv.org/pdf/x" none
        (.interrupted [[1, 2]])).fst = .error .transport
    ∧ (download_pdf cexProc cexSt "https://arxiv.org/pdf/x" none
        (.interrupted [[1, 2]])).snd.fs
        (effectiveSavePath cexProc "https://arxiv.org/pdf/x" none)
        = some (List.flatten [[1, 2]]) :=
  download_pdf_failure_paths cexProc cexSt "https://arxiv.org/pdf/x" none
    [[1, 2]] rfl

/-- C4: starting from a state with no cached PDF for the record, a first
successful `download_paper_pdf` call returns the canonical cache path
`{tmp_dir}/{arxiv_id}.pdf` and issues exactly one network request; a second
call with the same record then returns the very same path and leaves the
state untouched — in particular, whatever the network would have answered,
no request is issued and no download is counted. -/
theorem download_paper_pdf_idempotent (proc : Processor) (st0 : DlState)
    (p : Paper) (chunks : List (List Nat)) (resp2 : HttpResp)
    (h : st0.fs (proc.tmpDir ++ "/" ++ p.arxiv_id ++ ".pdf") = none) :
    (download_paper_pdf proc st0 p (.ok chunks)).fst
        = .ok (proc.tmpDir ++ "/" ++ p.arxiv_id ++ ".pdf")
    ∧ (download_paper_pdf proc st0 p (.ok chunks)).snd.downloads
        = st0.downloads + 1
    ∧ download_paper_pdf proc ((download_paper_pdf proc st0 p (.ok chunks)).snd)
          p resp2
        = (.ok (proc.tmpDir ++ "/" ++ p.arxiv_id ++ ".pdf"),
           (download_paper_pdf proc st0 p (.ok chunks)).snd) := by
  have h1 : download_paper_pdf proc st0 p (.ok chunks)
      = (.ok (proc.tmpDir ++ "/" ++ p.arxiv_id ++ ".pdf"),
         { fs := updateFile st0.fs (proc.tmpDir ++ "/" ++ p.arxiv_id ++ ".pdf")
             chunks.flatten,
           downloads := st0.downloads + 1 }) := by
    simp [download_paper_pdf, download_pdf, effectiveSavePath, h]
  rw [h1]
  refine ⟨rfl, rfl, ?_⟩
  simp [download_paper_pdf, updateFile]

theorem download_paper_pdf_idempotent_witness :
    (download_paper_pdf cexProc cexSt paper1 (.ok [[1], [2]])).fst
        = .ok (cexProc.tmpDir ++ "/" ++ paper1.arxiv_id ++ ".pdf")
    ∧ (download_paper_pdf cexProc cexSt paper1 (.ok [[1], [2]])).snd.downloads
        = cexSt.downloads + 1
    ∧ download_paper_pdf cexProc
          ((download_paper_pdf cexProc cexSt paper1 (.ok [[1], [2]])).snd)
          paper1 .badStatus
        = (.ok (cexProc.tmpDir ++ "/" ++ paper1.arxiv_id ++ ".pdf"),
           (download_paper_pdf cexProc cexSt paper1 (.ok [[1], [2]])).snd) :=
  download_paper_pdf_idempotent cexProc cexSt paper1 [[1], [2]] .badStatus rfl

/-- C10: when `download_pdf` is called without an explicit save path, the
destination is directly under the cache root: `{tmp_dir}/{filename}`, where
`filename` is the URL's last `/`-segment (hence contains no `/` itself),
kept as-is when it already ends in `".pdf"` and with `".pdf"` appended
otherwise; a successful call returns exactly that path. -/
theorem default_save_path_shape (proc : Processor) (st : DlState)
    (url : String) (chunks : List (List Nat)) :
    (∃ filename : String,
      effectiveSavePath proc url none = proc.tmpDir ++ "/" ++ filename
      ∧ filename.data.all (fun c => c ≠ '/')
      ∧ (pyEndsWith (pySplitLast '/' url) ".pdf" = true →
          filename = pySplitLast '/' url)
      ∧ (pyEndsWith (pySplitLast '/' url) ".pdf" = false →
          filename = pySplitLast '/' url ++ ".pdf"))
    ∧ (download_pdf proc st url none (.ok chunks)).fst
        = .ok (effectiveSavePath proc url none) := by
  have hseg : (pySplitLast '/' url).data.all (fun c => c ≠ '/') = true := by
    simp only [pySplitLast, List.all_eq_true]
    intro c hc
    rw [List.mem_reverse] at hc
    have := List.mem_takeWhile_imp hc
    simpa using this
  constructor
  · cases hpe : pyEndsWith (pySplitLast '/' url) ".pdf" with
    | true =>
      refine ⟨pySplitLast '/' url, by simp [effectiveSavePath, hpe], hseg,
        ?_, ?_⟩
      · intro _
        rfl
      · intro hc
        exact absurd hc (by decide)
    | false =>
      refine ⟨pySplitLast '/' url ++ ".pdf",
        by simp [effectiveSavePath, hpe], ?_, ?_, ?_⟩
      · have hd : (pySplitLast '/' url ++ ".pdf").data
            = (pySplitLast '/' url).data ++ (".pdf" : String).data := rfl
        rw [List.all_eq_true] at hseg ⊢
        intro c hc
        rw [hd, List.mem_append] at hc
        rcases hc with hc | hc
        · exact hseg c hc
        · simp only [show (".pdf" : String).data = ['.', 'p', 'd', 'f'] from
            rfl, List.mem_cons, List.not_mem_nil, or_false] at hc
          rcases hc with rfl | rfl | rfl | rfl <;> decide
      · intro hc
        exact absurd hc (by decide)
      · intro _
        rfl
  · unfold download_pdf
    cases h : (st.fs (effectiveSavePath proc url none)).isSome <;> simp [h]

theorem default_save_path_shape_witness :
    (∃ filename : String,
      effectiveSavePath cexProc "https://arxiv.org/pdf/2601.00001v1" none
        = cexProc.tmpDir ++ "/" ++ filename
      ∧ filename.data.all (fun c => c ≠ '/')
      ∧ (pyEndsWith (pySplitLast '/' "https://arxiv.org/pdf/2601.00001v1") ".pdf"
            = true →
          filename = pySplitLast '/' "https://arxiv.org/pdf/2601.00001v1")
      ∧ (pyEndsWith (pySplitLast '/' "https://arxiv.org/pdf/2601.00001v1") ".pdf"
            = false →
          filename = pySplitLast '/' "https://arxiv.org/pdf/2601.00001v1"
            ++ ".pdf"))
    ∧ (download_pdf cexProc cexSt "https://arxiv.org/pdf/2601.00001v1" none
          (.ok [[1]])).fst
        = .ok (effectiveSavePath cexProc "https://arxiv.org/pdf/2601.00001v1"
            none) :=
  default_save_path_shape cexProc cexSt "https://arxiv.org/pdf/2601.00001v1"
    [[1]]

/-! ## Extraction engine (pdf_processor.py)

`extract_text` checks existence, then tries PyMuPDF (the primary backend)
when available, then pdfplumber (the secondary) when the primary was
unavailable or failed, and otherwise fails. Each backend's behaviour on
the given PDF is modelled atomically as `Option String` (`some` extracted
text, `none` for a raised exception); the availability flags model the
import-time `PYMUPDF_AVAILABLE` / `PDFPLUMBER_AVAILABLE` booleans. In the
spec's error taxonomy, both the re-raised pdfplumber exception and the
final `RuntimeError` are `ExtractionError`; the `FileNotFoundError` is
`NotFoundError`. -/

inductive ExtractResult where
  | ok (text : String)
  | notFound
  | extractionError
deriving DecidableEq, Repr

/-- Embeds `PDFProcessor.extract_text` (pdf_processor.py lines 112-154). -/
def extract_text (pdfExists : Bool) (mupdfAvail plumberAvail : Bool)
    (mupdf plumber : Option String) : ExtractResult :=
  if pdfExists = false then .notFound
  else
    match mupdfAvail, mupdf with
    | true, some t => .ok t
    | _, _ =>
      match plumberAvail, plumber with
      | true, some t => .ok t
      | true, none => .extractionError
      | false, _ => .extractionError

/-- C8: `extract_text` fails with `NotFoundError` exactly when the PDF does
not exist; when it exists, the primary backend's success is returned as-is,
a primary failure (or unavailability) falls back to the secondary backend,
and the call fails with `ExtractionError` if and only if the primary was
unavailable or failed and the secondary was unavailable or failed (which
covers "no backend available" and "every attempted backend fails"). -/
theorem extract_text_spec (ex a1 a2 : Bool) (r1 r2 : Option String) :
    (extract_text ex a1 a2 r1 r2 = .notFound ↔ ex = false)
    ∧ (extract_text ex a1 a2 r1 r2 = .extractionError
        ↔ ex = true ∧ (a1 = false ∨ r1 = none) ∧ (a2 = false ∨ r2 = none))
    ∧ (∀ t, ex = true → a1 = true → r1 = some t →
        extract_text ex a1 a2 r1 r2 = .ok t)
    ∧ (∀ t, ex = true → (a1 = false ∨ r1 = none) → a2 = true → r2 = some t →
        extract_text ex a1 a2 r1 r2 = .ok t) := by
  cases ex <;> cases a1 <;> cases a2 <;> cases r1 <;> cases r2 <;>
    simp [extract_text]

theorem extract_text_spec_witness :
    (extract_text true true true none (some "fallback text") = .notFound
      ↔ true = false)
    ∧ (extract_text true true true none (some "fallback text")
          = .extractionError
        ↔ true = true ∧ (true = false ∨ (none : Option String) = none)
          ∧ (true = false ∨ (some "fallback text" : Option String) = none))
    ∧ (∀ t, true = true → true = true → (none : Option String) = some t →
        extract_text true true true none (some "fallback text") = .ok t)
    ∧ (∀ t, true = true → (true = false ∨ (none : Option String) = none) →
        true = true → (some "fallback text" : Option String) = some t →
        extract_text true true true none (some "fallback text") = .ok t) :=
  extract_text_spec true true true none (some "fallback text")

/-! ## Markdown conversion and caching (pdf_processor.py)

The filesystem holding both PDFs and derived markdown is a map from path
strings to optional contents (opaque strings). The pymupdf4llm backend is
modelled by an availability flag and a conversion function
`conv : String → Option String` on the PDF's content (`none` = the library
raised); `conversions` counts invocations of `pymupdf4llm.to_markdown`. -/

inductive ConvError where
  | notFound
  | unsupported
  | conversionFailed
deriving DecidableEq, Repr

structure MdState where
  store : String → Option String
  conversions : Nat

/-- Embeds `pathlib.Path.with_suffix` for the names that arise here: the
last `/`-component's extension (from its last `.`, when that dot exists and
is not the component's leading character) is replaced by `suffix`;
otherwise `suffix` is appended to the component. -/
def withSuffix (p : String) (suffix : String) : String :=
  let name := pySplitLast '/' p
  let dir := pyTake p (p.data.length - name.data.length)
  let nrev := name.data.reverse
  let ext := nrev.takeWhile (fun c => c ≠ '.')
  let stem :=
    if ext.length + 1 < name.data.length
        ∧ (nrev.drop ext.length).head? = some '.' then
      String.mk ((nrev.drop (ext.length + 1)).reverse)
    else name
  dir ++ (stem ++ suffix)

/-- Embeds `PDFProcessor.get_markdown_path` (pdf_processor.py lines 184-195):
`pdf_path.with_suffix(".md")`, a pure derivation with no I/O. -/
def get_markdown_path (pdf_path : String) : String := withSuffix pdf_path ".md"

/-- Embeds `PDFProcessor.convert_to_markdown` (pdf_processor.py lines
156-182): requires the PDF to exist, then pymupdf4llm to be available, then
invokes the conversion (counted), surfacing its failure. -/
def convert_to_markdown (st : MdState) (avail : Bool)
    (conv : String → Option String) (pdf_path : String) :
    (Except ConvError String) × MdState :=
  match st.store pdf_path with
  | none => (.error .notFound, st)
  | some content =>
    if avail = false then (.error .unsupported, st)
    else
      let st' : MdState := { st with conversions := st.conversions + 1 }
      match conv content with
      | some md => (.ok md, st')
      | none => (.error .conversionFailed, st')

/-- Embeds `PDFProcessor.convert_and_save_markdown` (pdf_processor.py lines
197-227): derive the markdown path when not given, short-circuit when it
already exists, otherwise convert and write it. -/
def convert_and_save_markdown (st : MdState) (avail : Bool)
    (conv : String → Option String) (pdf_path : String)
    (markdown_path : Option String) : (Except ConvError String) × MdState :=
  let mdPath := match markdown_path with
    | some mp => mp
    | none => get_markdown_path pdf_path
  if (st.store mdPath).isSome then (.ok mdPath, st)
  else
    match convert_to_markdown st avail conv pdf_path with
    | (.ok md, st') => (.ok mdPath, { st' with store := updateFile st'.store mdPath md })
    | (.error e, st') => (.error e, st')

/-- Overwriting the PDF's content in the store: models the PDF file changing
on disk between two calls. -/
def withPdfContent (st : MdState) (pdf_path newContent : String) : MdState :=
  { st with store := updateFile st.store pdf_path newContent }

/-- C5: starting with no cached markdown for the PDF, a first successful
`convert_and_save_markdown` call returns the derived markdown path and
performs exactly one conversion; a second call — even after the PDF's
content has changed, and whatever backend availability and behaviour the
second call would see — returns the same path without converting and
leaves the state untouched. -/
theorem convert_and_cache_idempotent (st0 : MdState) (avail avail2 : Bool)
    (conv conv2 : String → Option String) (pdfPath c md newPdf : String)
    (hmd : st0.store (get_markdown_path pdfPath) = none)
    (hpdf : st0.store pdfPath = some c)
    (hne : get_markdown_path pdfPath ≠ pdfPath)
    (havail : avail = true) (hconv : conv c = some md) :
    (convert_and_save_markdown st0 avail conv pdfPath none).fst
        = .ok (get_markdown_path pdfPath)
    ∧ (convert_and_save_markdown st0 avail conv pdfPath none).snd.conversions
        = st0.conversions + 1
    ∧ convert_and_save_markdown
          (withPdfContent (convert_and_save_markdown st0 avail conv pdfPath
            none).snd pdfPath newPdf)
          avail2 conv2 pdfPath none
        = (.ok (get_markdown_path pdfPath),
           withPdfContent (convert_and_save_markdown st0 avail conv pdfPath
             none).snd pdfPath newPdf) := by
  subst havail
  have h1 : convert_and_save_markdown st0 true conv pdfPath none
      = (.ok (get_markdown_path pdfPath),
         { store := updateFile st0.store (get_markdown_path pdfPath) md,
           conversions := st0.conversions + 1 }) := by
    simp [convert_and_save_markdown, convert_to_markdown, hmd, hpdf, hconv]
  rw [h1]
  refine ⟨rfl, rfl, ?_⟩
  have hhit : (withPdfContent
      { store := updateFile st0.store (get_markdown_path pdfPath) md,
        conversions := st0.conversions + 1 } pdfPath newPdf).store
      (get_markdown_path pdfPath) = some md := by
    simp [withPdfContent, updateFile, hne]
  simp [convert_and_save_markdown, hhit]

def mdSt0 : MdState := ⟨fun p => if p = "/cache/2601.00001.pdf" then some "%PDF" else none, 0⟩

theorem convert_and_cache_idempotent_witness :
    (convert_and_save_markdown mdSt0 true (fun _ => some "# Title")
        "/cache/2601.00001.pdf" none).fst
        = .ok (get_markdown_path "/cache/2601.00001.pdf")
    ∧ (convert_and_save_markdown mdSt0 true (fun _ => some "# Title")
        "/cache/2601.00001.pdf" none).snd.conversions = mdSt0.conversions + 1
    ∧ convert_and_save_markdown
          (withPdfContent (convert_and_save_markdown mdSt0 true
            (fun _ => some "# Title") "/cache/2601.00001.pdf" none).snd
            "/cache/2601.00001.pdf" "%PDF-changed")
          false (fun _ => none) "/cache/2601.00001.pdf" none
        = (.ok (get_markdown_path "/cache/2601.00001.pdf"),
           withPdfContent (convert_and_save_markdown mdSt0 true
             (fun _ => some "# Title") "/cache/2601.00001.pdf" none).snd
             "/cache/2601.00001.pdf" "%PDF-changed") :=
  convert_and_cache_idempotent mdSt0 true false (fun _ => some "# Title")
    (fun _ => none) "/cache/2601.00001.pdf" "%PDF" "# Title" "%PDF-changed"
    rfl rfl (by decide) rfl rfl

/-! ## Summary synthesis: content truncation (generate_summary.py) -/

theorem length_pyTake (s : String) (n : Nat) :
    (pyTake s n).length = min n s.length :=
  List.length_take n s.data

theorem pyTake_of_le (s : String) (n : Nat) (h : s.length ≤ n) :
    pyTake s n = s := by
  show String.mk (s.data.take n) = s
  rw [List.take_of_length_le h]

/-- The marker appended to markdown content that exceeds 10,000 characters
(generate_summary.py line 169). -/
def markdownTruncationMarker : String :=
  "\n\n... (truncated, full content available in Markdown file)"

/-- Embeds the markdown content preview (generate_summary.py lines 166-169):
`content_preview = markdown_content[:10000]`, with the marker appended when
`len(markdown_content) > 10000`. -/
def content_preview (markdown_content : String) : String :=
  let preview := pyTake markdown_content 10000
  if markdown_content.length > 10000 then preview ++ markdownTruncationMarker
  else preview

/-- Embeds the plain-text preview (generate_summary.py line 189):
`text[:5000] + ("..." if len(text) > 5000 else "")`. -/
def text_preview (text : String) : String :=
  pyTake text 5000 ++ (if text.length > 5000 then "..." else "")

/-- Embeds the markdown content block of a synthesized section
(generate_summary.py lines 171-180); the content line is the preview. -/
def paperContentBlockLines (markdown_content md_path : String) : List String :=
  ["**Paper Content (Markdown):**", "", "```markdown",
   content_preview markdown_content, "```", "",
   "*Full Markdown file: " ++ md_path ++ "*", ""]

/-- Embeds the plain-text content block of a synthesized section
(generate_summary.py lines 185-192). -/
def extractedTextBlockLines (text : String) : List String :=
  ["**Extracted PDF Text:**", "", "```", text_preview text, "```", ""]

/-- C6: the content block of a synthesized section (the line between the
code fences) is, for markdown content strictly longer than 10,000
characters, the first 10,000 characters followed by the truncation marker
(so its length is 10,000 plus the marker's length); at or under the bound
it is the content unmodified. Likewise for plain text with bound 5,000 and
marker `"..."`. -/
theorem truncation_law (s t : String) :
    (paperContentBlockLines s "m.md")[3]? = some (content_preview s)
    ∧ (extractedTextBlockLines t)[3]? = some (text_preview t)
    ∧ (s.length > 10000 →
        content_preview s = pyTake s 10000 ++ markdownTruncationMarker
        ∧ (content_preview s).length
            = 10000 + markdownTruncationMarker.length)
    ∧ (s.length ≤ 10000 → content_preview s = s)
    ∧ (t.length > 5000 →
        text_preview t = pyTake t 5000 ++ "..."
        ∧ (text_preview t).length = 5000 + ("..." : String).length)
    ∧ (t.length ≤ 5000 → text_preview t = t) := by
  refine ⟨rfl, rfl, ?_, ?_, ?_, ?_⟩
  · intro h
    have he : content_preview s = pyTake s 10000 ++ markdownTruncationMarker := by
      simp [content_preview, h]
    refine ⟨he, ?_⟩
    rw [he, String.length_append, length_pyTake]
    omega
  · intro h
    simp only [content_preview]
    rw [if_neg (by omega)]
    exact pyTake_of_le s 10000 h
  · intro h
    have he : text_preview t = pyTake t 5000 ++ "..." := by
      simp [text_preview, h]
    refine ⟨he, ?_⟩
    rw [he, String.length_append, length_pyTake]
    have : ("..." : String).length = 3 := rfl
    omega
  · intro h
    simp only [text_preview]
    rw [if_neg (by omega), pyTake_of_le t 5000 h]
    show String.append t "" = t
    simp [String.append]

def bigMd : String := ⟨List.replicate 10001 'a'⟩

def bigTxt : String := ⟨List.replicate 5001 'b'⟩

theorem truncation_law_witness :
    content_preview bigMd = pyTake bigMd 10000 ++ markdownTruncationMarker
    ∧ (content_preview bigMd).length = 10000 + markdownTruncationMarker.length
    ∧ content_preview "short md" = "short md"
    ∧ text_preview bigTxt = pyTake bigTxt 5000 ++ "..."
    ∧ (text_preview bigTxt).length = 5000 + ("..." : String).length
    ∧ text_preview "tiny text" = "tiny text" := by
  have hbigMd : bigMd.length > 10000 := by
    show (List.replicate 10001 'a').length > 10000
    rw [List.length_replicate]
    omega
  have hbigTxt : bigTxt.length > 5000 := by
    show (List.replicate 5001 'b').length > 5000
    rw [List.length_replicate]
    omega
  have h1 := truncation_law bigMd bigTxt
  have h2 := truncation_law "short md" "tiny text"
  exact ⟨(h1.2.2.1 hbigMd).1, (h1.2.2.1 hbigMd).2,
    h2.2.2.2.1 (by decide), (h1.2.2.2.2.1 hbigTxt).1,
    (h1.2.2.2.2.1 hbigTxt).2, h2.2.2.2.2.2 (by decide)⟩

/-! ## Date handling (server.py `call_tool`, benty_client.py) -/

/-- A date value read from `config.json`: a `YYYY-MM-DD` string or a numeric
`YYYYMMDD` value (modelled as `Nat`; `YYYYMMDD` values are non-negative). -/
inductive ConfigDate where
  | str (s : String)
  | num (n : Nat)
deriving DecidableEq, Repr

/-- Embeds the `f"{date_str[:4]}-{date_str[4:6]}-{date_str[6:8]}"`
normalization (server.py line 209). -/
def normalizeNumericDate (ds : String) : String :=
  pyTake ds 4 ++ "-" ++ pyTake (pyDrop ds 4) 2 ++ "-" ++ pyTake (pyDrop ds 6) 2

/-- Embeds the date resolution of the `fetch_daily_papers` tool call
(server.py lines 198-209): an explicit string argument wins; otherwise the
config value is used, with `None` falling back to today's date and a
numeric value whose decimal form has exactly 8 digits normalized to
`YYYY-MM-DD`; a numeric value of any other width is passed through
unchanged (`Sum.inr`). -/
def resolveToolDate (argDate : Option String) (cfgDate : Option ConfigDate)
    (today : String) : String ⊕ Nat :=
  match argDate with
  | some d => .inl d
  | none =>
    match cfgDate with
    | none => .inl today
    | some (.str s) => .inl s
    | some (.num n) =>
      let ds := Nat.repr n
      if ds.length = 8 then .inl (normalizeNumericDate ds) else .inr n

/-- Embeds the date defaulting inside `fetch_daily_papers`
(benty_client.py lines 69-70): `None` becomes today's date. -/
def effectiveFetchDate (date : Option String) (today : String) : String :=
  match date with
  | none => today
  | some d => d

/-- Embeds the listing request URL construction (benty_client.py line 72). -/
def listingUrl (date : String) : String :=
  "https://www.benty-fields.com/daily_arXiv_results?date=" ++ date

theorem string_eq_of_data {s t : String} (h : s.data = t.data) : s = t := by
  cases s
  cases t
  exact congrArg String.mk h

/-- C9: an explicit `YYYY-MM-DD` string date is accepted and used as given;
an 8-digit numeric `YYYYMMDD` config date is normalized before use — its
decimal digits split into a 4-character year, 2-character month and
2-character day, reassembled as `YYYY-MM-DD`; and when the date is omitted
everywhere, today's date is used to build the listing request. -/
theorem date_forms_accepted (n : Nat) (s today : String)
    (cfg : Option ConfigDate) (h8 : (Nat.repr n).length = 8) :
    resolveToolDate (some s) cfg today = .inl s
    ∧ resolveToolDate none none today = .inl today
    ∧ effectiveFetchDate none today = today
    ∧ listingUrl (effectiveFetchDate none today)
        = "https://www.benty-fields.com/daily_arXiv_results?date=" ++ today
    ∧ ∃ y m d : String, y.length = 4 ∧ m.length = 2 ∧ d.length = 2
        ∧ Nat.repr n = y ++ m ++ d
        ∧ resolveToolDate none (some (.num n)) today
            = .inl (y ++ "-" ++ m ++ "-" ++ d) := by
  refine ⟨rfl, rfl, rfl, rfl, ?_⟩
  have hl : (Nat.repr n).data.length = 8 := h8
  refine ⟨pyTake (Nat.repr n) 4, pyTake (pyDrop (Nat.repr n) 4) 2,
    pyTake (pyDrop (Nat.repr n) 6) 2, ?_, ?_, ?_, ?_, ?_⟩
  · show ((Nat.repr n).data.take 4).length = 4
    rw [List.length_take]
    omega
  · show (((Nat.repr n).data.drop 4).take 2).length = 2
    rw [List.length_take, List.length_drop]
    omega
  · show (((Nat.repr n).data.drop 6).take 2).length = 2
    rw [List.length_take, List.length_drop]
    omega
  · apply string_eq_of_data
    show (Nat.repr n).data
      = ((Nat.repr n).data.take 4 ++ ((Nat.repr n).data.drop 4).take 2)
        ++ ((Nat.repr n).data.drop 6).take 2
    have h6 : ((Nat.repr n).data.drop 6).take 2 = (Nat.repr n).data.drop 6 :=
      List.take_of_length_le (by rw [List.length_drop]; omega)
    have hdd : ((Nat.repr n).data.drop 4).drop 2 = (Nat.repr n).data.drop 6 :=
      List.drop_drop 2 4 (Nat.repr n).data
    rw [h6, List.append_assoc, ← hdd, List.take_append_drop,
      List.take_append_drop]
  · simp [resolveToolDate, h8, normalizeNumericDate]

theorem date_forms_accepted_witness :
    resolveToolDate (some "2026-01-09") none "2026-10-12" = .inl "2026-01-09"
    ∧ resolveToolDate none none "2026-10-12" = .inl "2026-10-12"
    ∧ effectiveFetchDate none "2026-10-12" = "2026-10-12"
    ∧ listingUrl (effectiveFetchDate none "2026-10-12")
        = "https://www.benty-fields.com/daily_arXiv_results?date="
          ++ "2026-10-12"
    ∧ ∃ y m d : String, y.length = 4 ∧ m.length = 2 ∧ d.length = 2
        ∧ Nat.repr 20260109 = y ++ m ++ d
        ∧ resolveToolDate none (some (.num 20260109)) "2026-10-12"
            = .inl (y ++ "-" ++ m ++ "-" ++ d) :=
  date_forms_accepted 20260109 "2026-01-09" "2026-10-12" none (by decide)
